import Mathlib

/-!
Verification of the dungeon_quest simulation core.

This file gives a shallow embedding of the game's ECS simulation core:
the immutable `Vector2D` utility, the Transform/Health/Combat/Movement/
AI/Collider/Player/Enemy components, and the Collision, AI and Combat
systems.  JavaScript numbers are modelled as real numbers, stateful
methods become functions returning the updated record (paired with the
method's return value where the source returns one), `Date.now()` and
`Math.random()` become explicit `now`/`roll` parameters, and the
synchronous event bus becomes an explicit list of emitted events.
Theorems about these definitions settle the specification's claims.
-/

noncomputable section

/-- Vector2D (immutable variant): a 2D vector over the reals. -/
structure Vector2D where
  x : ℝ
  y : ℝ

/-- Vector2D.zero: the zero vector. -/
def Vector2D.zero : Vector2D := ⟨0, 0⟩

/-- Vector2D.add: componentwise sum (returns a new vector). -/
def Vector2D.add (v other : Vector2D) : Vector2D :=
  ⟨v.x + other.x, v.y + other.y⟩

/-- Vector2D.subtract: componentwise difference (returns a new vector). -/
def Vector2D.subtract (v other : Vector2D) : Vector2D :=
  ⟨v.x - other.x, v.y - other.y⟩

/-- Vector2D.multiply: scalar multiple (returns a new vector). -/
def Vector2D.multiply (v : Vector2D) (scalar : ℝ) : Vector2D :=
  ⟨v.x * scalar, v.y * scalar⟩

/-- Vector2D.divide: scalar division; division by zero returns a clone. -/
def Vector2D.divide (v : Vector2D) (scalar : ℝ) : Vector2D :=
  if scalar = 0 then ⟨v.x, v.y⟩ else ⟨v.x / scalar, v.y / scalar⟩

/-- Vector2D.length: the magnitude `Math.sqrt(x*x + y*y)`. -/
def Vector2D.length (v : Vector2D) : ℝ :=
  Real.sqrt (v.x * v.x + v.y * v.y)

/-- Vector2D.lengthSquared. -/
def Vector2D.lengthSquared (v : Vector2D) : ℝ :=
  v.x * v.x + v.y * v.y

/-- Vector2D.normalize: scale to length 1; the zero vector stays zero. -/
def Vector2D.normalize (v : Vector2D) : Vector2D :=
  if v.length = 0 then Vector2D.zero else v.divide v.length

/-- Vector2D.setLength. -/
def Vector2D.setLength (v : Vector2D) (l : ℝ) : Vector2D :=
  v.normalize.multiply l

/-- Vector2D.limit: cap the magnitude at `maxLength`
(`if (len > maxLength) return this.setLength(maxLength); return this.clone()`). -/
def Vector2D.limit (v : Vector2D) (maxLength : ℝ) : Vector2D :=
  if maxLength < v.length then v.setLength maxLength else ⟨v.x, v.y⟩

/-- Vector2D.distanceTo. -/
def Vector2D.distanceTo (v other : Vector2D) : ℝ :=
  (v.subtract other).length

/-- Model of JavaScript `Math.atan2(y, x)` via the complex argument. -/
def atan2 (y x : ℝ) : ℝ := Complex.arg ⟨x, y⟩

/-- Vector2D.angle: `Math.atan2(this.y, this.x)`. -/
def Vector2D.angle (v : Vector2D) : ℝ := atan2 v.y v.x

/-- Vector2D.angleTo: `Math.atan2(other.y - this.y, other.x - this.x)`. -/
def Vector2D.angleTo (v other : Vector2D) : ℝ :=
  atan2 (other.y - v.y) (other.x - v.x)

/-- TransformComponent: position, rotation (radians) and scale. -/
structure TransformComponent where
  position : Vector2D
  rotation : ℝ
  scale : Vector2D

/-- TransformComponent.translate: `position = position.add(offset)`. -/
def TransformComponent.translate (t : TransformComponent) (offset : Vector2D) :
    TransformComponent :=
  { t with position := t.position.add offset }

/-- TransformComponent.lookAt: `rotation = position.angleTo(target)`. -/
def TransformComponent.lookAt (t : TransformComponent) (target : Vector2D) :
    TransformComponent :=
  { t with rotation := t.position.angleTo target }

/-- HealthComponent: HP tracking. -/
structure HealthComponent where
  current : ℝ
  max : ℝ
  invulnerable : Bool
  lastDamageTime : ℝ

/-- HealthComponent.takeDamage: returns the actual damage dealt (after
clamping) together with the updated component.  `Date.now()` is the
explicit `now` argument. -/
def HealthComponent.takeDamage (h : HealthComponent) (amount : ℝ) (now : ℝ) :
    ℝ × HealthComponent :=
  if h.invulnerable then (0, h)
  else
    let oldHealth := h.current
    let newCurrent := Max.max 0 (h.current - amount)
    (oldHealth - newCurrent,
      { h with current := newCurrent, lastDamageTime := now })

/-- HealthComponent.heal: returns the actual amount healed together with
the updated component. -/
def HealthComponent.heal (h : HealthComponent) (amount : ℝ) :
    ℝ × HealthComponent :=
  let oldHealth := h.current
  let newCurrent := Min.min h.max (h.current + amount)
  (newCurrent - oldHealth, { h with current := newCurrent })

/-- HealthComponent.restore: set back to full health. -/
def HealthComponent.restore (h : HealthComponent) : HealthComponent :=
  { h with current := h.max }

/-- HealthComponent.isDead: `current <= 0`. -/
def HealthComponent.isDead (h : HealthComponent) : Prop :=
  h.current ≤ 0

instance (h : HealthComponent) : Decidable h.isDead :=
  inferInstanceAs (Decidable (h.current ≤ 0))

/-- HealthComponent.increaseMax: raise the maximum, optionally restoring. -/
def HealthComponent.increaseMax (h : HealthComponent) (amount : ℝ)
    (restoreFull : Bool) : HealthComponent :=
  let h1 := { h with max := h.max + amount }
  if restoreFull then { h1 with current := h1.max } else h1

/-- CombatComponent: attack and defense stats; cooldown in milliseconds. -/
structure CombatComponent where
  strength : ℝ
  defense : ℝ
  attackRange : ℝ
  attackCooldown : ℝ
  lastAttackTime : ℝ

/-- CombatComponent.canAttack: `Date.now() - lastAttackTime >= attackCooldown`. -/
def CombatComponent.canAttack (c : CombatComponent) (now : ℝ) : Prop :=
  now - c.lastAttackTime ≥ c.attackCooldown

instance (c : CombatComponent) (now : ℝ) : Decidable (c.canAttack now) :=
  inferInstanceAs (Decidable (now - c.lastAttackTime ≥ c.attackCooldown))

/-- CombatComponent.performAttack: record the attack timestamp. -/
def CombatComponent.performAttack (c : CombatComponent) (now : ℝ) :
    CombatComponent :=
  { c with lastAttackTime := now }

/-- CombatComponent.calculateDamage: base strength plus the random
variance `Math.floor(Math.random() * 5)`, modelled as the explicit
`roll` argument. -/
def CombatComponent.calculateDamage (c : CombatComponent) (roll : ℝ) : ℝ :=
  c.strength + roll

/-- CombatComponent.calculateDamageReceived: `Math.max(1, incoming - defense)`. -/
def CombatComponent.calculateDamageReceived (c : CombatComponent)
    (incomingDamage : ℝ) : ℝ :=
  Max.max 1 (incomingDamage - c.defense)

/-- PlayerComponent: player stats. -/
structure PlayerComponent where
  level : ℝ
  experience : ℝ
  experienceToNext : ℝ
  statPoints : ℝ
  kills : ℝ

/-- PlayerComponent.levelUp: increment the level, carry the experience
remainder, scale the threshold by 1.5 with `Math.floor`, award 3 stat
points; returns `true`. -/
def PlayerComponent.levelUp (p : PlayerComponent) : PlayerComponent × Bool :=
  ({ level := p.level + 1
     experience := p.experience - p.experienceToNext
     experienceToNext := ((⌊p.experienceToNext * 1.5⌋ : ℤ) : ℝ)
     statPoints := p.statPoints + 3
     kills := p.kills }, true)

/-- PlayerComponent.addExperience: add the amount, then level up exactly
once if the threshold is reached; returns whether a level-up happened. -/
def PlayerComponent.addExperience (p : PlayerComponent) (amount : ℝ) :
    PlayerComponent × Bool :=
  let p1 := { p with experience := p.experience + amount }
  if p1.experience ≥ p1.experienceToNext then p1.levelUp else (p1, false)

/-- PlayerComponent.addKill. -/
def PlayerComponent.addKill (p : PlayerComponent) : PlayerComponent :=
  { p with kills := p.kills + 1 }

/-- Enemy type tags. -/
inductive EnemyType where
  | slime
  | goblin
  | skeleton
  | demon
  deriving DecidableEq

/-- EnemyComponent: tag component for enemy entities. -/
structure EnemyComponent where
  enemyType : EnemyType
  experienceReward : ℝ
  lootTable : String

/-- C1 counterexample: a `HealthComponent` at full health 100/100 that
takes damage of amount -50 ends with `current = 150 > max = 100`, so the
invariant `0 ≤ current ≤ max` does not survive `takeDamage` for negative
amounts. -/
theorem takeDamage_negative_amount_violates_invariant :
    ((({ current := 100, max := 100, invulnerable := false,
         lastDamageTime := 0 } : HealthComponent).takeDamage (-50) 0).2.current
        = 150) ∧
    ¬ ((({ current := 100, max := 100, invulnerable := false,
           lastDamageTime := 0 } : HealthComponent).takeDamage (-50) 0).2.current
        ≤ (({ current := 100, max := 100, invulnerable := false,
              lastDamageTime := 0 } : HealthComponent).takeDamage (-50) 0).2.max) := by
  have hmax : Max.max (0 : ℝ) (100 - (-50)) = 150 := by
    rw [max_eq_right (by norm_num : (0:ℝ) ≤ 100 - (-50))]
    norm_num
  constructor
  · simp only [HealthComponent.takeDamage, Bool.false_eq_true, if_false]
    exact hmax
  · simp only [HealthComponent.takeDamage, Bool.false_eq_true, if_false]
    rw [hmax]
    norm_num

/-- C1 (amended): for a well-formed `HealthComponent` (`0 ≤ current ≤ max`)
and any non-negative amount, both `takeDamage` and `heal` preserve the
invariant `0 ≤ current ≤ max`. -/
theorem health_invariant_preserved_nonneg_amounts (h : HealthComponent)
    (amount now : ℝ) (hamt : 0 ≤ amount) (h0 : 0 ≤ h.current)
    (h1 : h.current ≤ h.max) :
    (0 ≤ (h.takeDamage amount now).2.current ∧
      (h.takeDamage amount now).2.current ≤ (h.takeDamage amount now).2.max) ∧
    (0 ≤ (h.heal amount).2.current ∧
      (h.heal amount).2.current ≤ (h.heal amount).2.max) := by
  have hmax0 : 0 ≤ h.max := le_trans h0 h1
  constructor
  · unfold HealthComponent.takeDamage
    by_cases hinv : h.invulnerable
    · simp [hinv, h0, h1]
    · simp only [hinv, Bool.false_eq_true, if_false]
      refine ⟨le_max_left _ _, ?_⟩
      exact max_le hmax0 (le_trans (by linarith) h1)
  · unfold HealthComponent.heal
    refine ⟨le_min hmax0 (by linarith), min_le_left _ _⟩

/-- A concrete half-health component used to witness the amended C1. -/
def healthSample : HealthComponent :=
  { current := 50, max := 100, invulnerable := false, lastDamageTime := 0 }

/-- C1 amended theorem witness at a concrete component and amount. -/
theorem health_invariant_preserved_nonneg_amounts_witness :
    (0 : ℝ) ≤ 30 ∧ 0 ≤ healthSample.current ∧
    healthSample.current ≤ healthSample.max ∧
    ((0 ≤ (healthSample.takeDamage 30 7).2.current ∧
        (healthSample.takeDamage 30 7).2.current ≤
          (healthSample.takeDamage 30 7).2.max) ∧
      (0 ≤ (healthSample.heal 30).2.current ∧
        (healthSample.heal 30).2.current ≤ (healthSample.heal 30).2.max)) :=
  ⟨by norm_num, by norm_num [healthSample], by norm_num [healthSample],
    health_invariant_preserved_nonneg_amounts healthSample 30 7 (by norm_num)
      (by norm_num [healthSample]) (by norm_num [healthSample])⟩

/-- C3: for any combat component, `calculateDamageReceived raw` equals
`max 1 (raw - defense)` and is never below 1, for all non-negative raw
damage and defense. -/
theorem calculateDamageReceived_is_clamped_difference (c : CombatComponent)
    (raw : ℝ) (hraw : 0 ≤ raw) (hdef : 0 ≤ c.defense) :
    c.calculateDamageReceived raw = Max.max 1 (raw - c.defense) ∧
    1 ≤ c.calculateDamageReceived raw :=
  ⟨rfl, le_max_left _ _⟩

/-- C3 witness: strength-10 attacker raw damage 10 against defense 20
still deals `max 1 (10 - 20) = 1`. -/
theorem calculateDamageReceived_is_clamped_difference_witness :
    (0 : ℝ) ≤ 10 ∧
    (0 : ℝ) ≤ ({ strength := 10, defense := 20, attackRange := 50,
                 attackCooldown := 500, lastAttackTime := 0 } : CombatComponent).defense ∧
    (({ strength := 10, defense := 20, attackRange := 50, attackCooldown := 500,
        lastAttackTime := 0 } : CombatComponent).calculateDamageReceived 10 =
        Max.max 1 (10 - 20) ∧
      1 ≤ ({ strength := 10, defense := 20, attackRange := 50,
             attackCooldown := 500,
             lastAttackTime := 0 } : CombatComponent).calculateDamageReceived 10) :=
  ⟨by norm_num, by norm_num,
    calculateDamageReceived_is_clamped_difference _ 10 (by norm_num) (by norm_num)⟩

/-- C7: a player at experience 95 / threshold 100 gaining 10 experience
levels up exactly once, ending at experience 5, threshold 150 and level 2;
and in general `levelUp` subtracts the threshold from the experience
(keeping the remainder) and floors `experienceToNext * 1.5`. -/
theorem addExperience_carries_remainder_and_scales_threshold :
    ((({ level := 1, experience := 95, experienceToNext := 100, statPoints := 0,
         kills := 0 } : PlayerComponent).addExperience 10).2 = true ∧
      (({ level := 1, experience := 95, experienceToNext := 100, statPoints := 0,
          kills := 0 } : PlayerComponent).addExperience 10).1.experience = 5 ∧
      (({ level := 1, experience := 95, experienceToNext := 100, statPoints := 0,
          kills := 0 } : PlayerComponent).addExperience 10).1.experienceToNext = 150 ∧
      (({ level := 1, experience := 95, experienceToNext := 100, statPoints := 0,
          kills := 0 } : PlayerComponent).addExperience 10).1.level = 2) ∧
    (∀ q : PlayerComponent,
      q.levelUp.1.experience = q.experience - q.experienceToNext ∧
      q.levelUp.1.experienceToNext = ((⌊q.experienceToNext * 1.5⌋ : ℤ) : ℝ) ∧
      q.levelUp.1.level = q.level + 1) := by
  have hfloor : ((⌊(100 : ℝ) * 1.5⌋ : ℤ) : ℝ) = 150 := by
    rw [show (100 : ℝ) * 1.5 = ((150 : ℤ) : ℝ) by norm_num, Int.floor_intCast]
    norm_num
  constructor
  · have hcond : ((95 : ℝ) + 10 ≥ 100) := by norm_num
    simp only [PlayerComponent.addExperience, PlayerComponent.levelUp]
    norm_num [hfloor]
  · intro q
    exact ⟨rfl, rfl, rfl⟩

/-- C10: when the invulnerable flag is set, `takeDamage` returns 0 and
leaves the component (in particular `current` and `lastDamageTime`)
unchanged, for any amount. -/
theorem takeDamage_invulnerable_is_noop (h : HealthComponent)
    (amount now : ℝ) (hinv : h.invulnerable = true) :
    h.takeDamage amount now = (0, h) := by
  unfold HealthComponent.takeDamage
  simp [hinv]

/-- MovementComponent: velocity and movement properties. -/
structure MovementComponent where
  velocity : Vector2D
  speed : ℝ
  maxSpeed : ℝ
  acceleration : ℝ
  friction : ℝ

/-- MovementComponent.setVelocity: `velocity = velocity.limit(maxSpeed)`. -/
def MovementComponent.setVelocity (m : MovementComponent) (velocity : Vector2D) :
    MovementComponent :=
  { m with velocity := velocity.limit m.maxSpeed }

/-- MovementComponent.addVelocity: add a delta, then cap at `maxSpeed`. -/
def MovementComponent.addVelocity (m : MovementComponent) (delta : Vector2D) :
    MovementComponent :=
  { m with velocity := (m.velocity.add delta).limit m.maxSpeed }

/-- MovementComponent.moveInDirection: accelerate along a normalized
direction for `deltaTime` seconds. -/
def MovementComponent.moveInDirection (m : MovementComponent)
    (direction : Vector2D) (deltaTime : ℝ) : MovementComponent :=
  m.addVelocity (direction.normalize.multiply (m.acceleration * deltaTime))

/-- MovementComponent.stop: zero the velocity immediately. -/
def MovementComponent.stop (m : MovementComponent) : MovementComponent :=
  { m with velocity := Vector2D.zero }

/-- The length of a scalar multiple is the absolute scalar times the length. -/
theorem Vector2D.length_multiply (v : Vector2D) (k : ℝ) :
    (v.multiply k).length = |k| * v.length := by
  unfold Vector2D.multiply Vector2D.length
  have h : v.x * k * (v.x * k) + v.y * k * (v.y * k) =
      k * k * (v.x * v.x + v.y * v.y) := by ring
  simp only [h]
  rw [Real.sqrt_mul (mul_self_nonneg k), Real.sqrt_mul_self_eq_abs]

/-- The length of a division by a nonzero scalar divides the length. -/
theorem Vector2D.length_divide (v : Vector2D) (s : ℝ) (hs : s ≠ 0) :
    (v.divide s).length = v.length / |s| := by
  unfold Vector2D.divide Vector2D.length
  rw [if_neg hs]
  have h : v.x / s * (v.x / s) + v.y / s * (v.y / s) =
      (v.x * v.x + v.y * v.y) / (s * s) := by
    field_simp
  simp only [h]
  rw [Real.sqrt_div (add_nonneg (mul_self_nonneg _) (mul_self_nonneg _)) (s * s),
    Real.sqrt_mul_self_eq_abs]

/-- Vector2D.limit caps the length at any non-negative bound. -/
theorem Vector2D.limit_length_le (v : Vector2D) (c : ℝ) (hc : 0 ≤ c) :
    (v.limit c).length ≤ c := by
  unfold Vector2D.limit
  by_cases hlt : c < v.length
  · rw [if_pos hlt]
    have hpos : 0 < v.length := lt_of_le_of_lt hc hlt
    unfold Vector2D.setLength Vector2D.normalize
    rw [if_neg (ne_of_gt hpos)]
    rw [Vector2D.length_multiply, Vector2D.length_divide v _ (ne_of_gt hpos)]
    rw [abs_of_pos hpos, div_self (ne_of_gt hpos), mul_one, abs_of_nonneg hc]
  · rw [if_neg hlt]
    exact le_of_not_lt hlt

/-- C6: for every movement component with a non-negative `maxSpeed`, the
velocity magnitude is at most `maxSpeed` after any `setVelocity`,
`addVelocity` or `moveInDirection` call, for any argument. -/
theorem movement_velocity_capped (m : MovementComponent) (v : Vector2D)
    (dt : ℝ) (hms : 0 ≤ m.maxSpeed) :
    (m.setVelocity v).velocity.length ≤ m.maxSpeed ∧
    (m.addVelocity v).velocity.length ≤ m.maxSpeed ∧
    (m.moveInDirection v dt).velocity.length ≤ m.maxSpeed := by
  refine ⟨?_, ?_, ?_⟩
  · exact Vector2D.limit_length_le _ _ hms
  · exact Vector2D.limit_length_le _ _ hms
  · exact Vector2D.limit_length_le _ _ hms

/-- A concrete movement component used to witness C6. -/
def movementSample : MovementComponent :=
  { velocity := Vector2D.zero, speed := 3, maxSpeed := 3, acceleration := 1000,
    friction := 0.9 }

/-- C6 witness at a concrete component and an over-speed argument. -/
theorem movement_velocity_capped_witness :
    0 ≤ movementSample.maxSpeed ∧
    ((movementSample.setVelocity ⟨4, 0⟩).velocity.length ≤ movementSample.maxSpeed ∧
      (movementSample.addVelocity ⟨4, 0⟩).velocity.length ≤ movementSample.maxSpeed ∧
      (movementSample.moveInDirection ⟨4, 0⟩ 1).velocity.length ≤
        movementSample.maxSpeed) :=
  ⟨by norm_num [movementSample],
    movement_velocity_capped movementSample ⟨4, 0⟩ 1 (by norm_num [movementSample])⟩

/-- Collider shape types. -/
inductive ColliderShape where
  | circle
  | rectangle
  deriving DecidableEq

/-- ColliderComponent: collision shape, offsets, bitmask layer/mask and
trigger/static flags. -/
structure ColliderComponent where
  shape : ColliderShape
  radius : ℝ
  width : ℝ
  height : ℝ
  offsetX : ℝ
  offsetY : ℝ
  layer : ℕ
  mask : ℕ
  isTrigger : Bool
  isStatic : Bool

/-- ColliderComponent.canCollideWith: `(mask & layer) !== 0`. -/
def ColliderComponent.canCollideWith (c : ColliderComponent) (layer : ℕ) :
    Bool :=
  decide (Nat.land c.mask layer ≠ 0)

/-- CollisionSystem.circleVsCircle: squared distance versus squared radius
sum. -/
def CollisionSystem.circleVsCircle (posA : Vector2D) (radiusA : ℝ)
    (posB : Vector2D) (radiusB : ℝ) : Bool :=
  let dx := posB.x - posA.x
  let dy := posB.y - posA.y
  let distSquared := dx * dx + dy * dy
  let radiusSum := radiusA + radiusB
  decide (distSquared < radiusSum * radiusSum)

/-- CollisionSystem.aabbVsAabb: interval overlap on both axes. -/
def CollisionSystem.aabbVsAabb (posA : Vector2D) (widthA heightA : ℝ)
    (posB : Vector2D) (widthB heightB : ℝ) : Bool :=
  let halfWidthA := widthA / 2
  let halfHeightA := heightA / 2
  let halfWidthB := widthB / 2
  let halfHeightB := heightB / 2
  decide (posA.x - halfWidthA < posB.x + halfWidthB ∧
    posA.x + halfWidthA > posB.x - halfWidthB ∧
    posA.y - halfHeightA < posB.y + halfHeightB ∧
    posA.y + halfHeightA > posB.y - halfHeightB)

/-- CollisionSystem.circleVsAabb: clamp the circle center into the box and
compare the squared distance with the squared radius. -/
def CollisionSystem.circleVsAabb (circlePos : Vector2D) (radius : ℝ)
    (rectPos : Vector2D) (width height : ℝ) : Bool :=
  let halfWidth := width / 2
  let halfHeight := height / 2
  let closestX := Max.max (rectPos.x - halfWidth)
    (Min.min circlePos.x (rectPos.x + halfWidth))
  let closestY := Max.max (rectPos.y - halfHeight)
    (Min.min circlePos.y (rectPos.y + halfHeight))
  let dx := circlePos.x - closestX
  let dy := circlePos.y - closestY
  decide (dx * dx + dy * dy < radius * radius)

/-- CollisionSystem.checkCollision: bidirectional layer filtering, then
shape dispatch on the offset positions. -/
def CollisionSystem.checkCollision (tA : TransformComponent)
    (cA : ColliderComponent) (tB : TransformComponent)
    (cB : ColliderComponent) : Bool :=
  if !(cA.canCollideWith cB.layer) then false
  else if !(cB.canCollideWith cA.layer) then false
  else
    let posA := tA.position.add ⟨cA.offsetX, cA.offsetY⟩
    let posB := tB.position.add ⟨cB.offsetX, cB.offsetY⟩
    match cA.shape, cB.shape with
    | ColliderShape.circle, ColliderShape.circle =>
        CollisionSystem.circleVsCircle posA cA.radius posB cB.radius
    | ColliderShape.rectangle, ColliderShape.rectangle =>
        CollisionSystem.aabbVsAabb posA cA.width cA.height posB cB.width
          cB.height
    | ColliderShape.circle, ColliderShape.rectangle =>
        CollisionSystem.circleVsAabb posA cA.radius posB cB.width cB.height
    | ColliderShape.rectangle, ColliderShape.circle =>
        CollisionSystem.circleVsAabb posB cB.radius posA cA.width cA.height

/-- The circle-circle test is symmetric in its operands. -/
theorem CollisionSystem.circleVsCircle_comm (posA posB : Vector2D)
    (rA rB : ℝ) :
    CollisionSystem.circleVsCircle posA rA posB rB =
      CollisionSystem.circleVsCircle posB rB posA rA := by
  simp only [CollisionSystem.circleVsCircle]
  rw [decide_eq_decide]
  have h1 : (posA.x - posB.x) * (posA.x - posB.x) +
      (posA.y - posB.y) * (posA.y - posB.y) =
      (posB.x - posA.x) * (posB.x - posA.x) +
      (posB.y - posA.y) * (posB.y - posA.y) := by ring
  have h2 : (rB + rA) * (rB + rA) = (rA + rB) * (rA + rB) := by ring
  rw [h1, h2]

/-- The box-box test is symmetric in its operands. -/
theorem CollisionSystem.aabbVsAabb_comm (posA posB : Vector2D)
    (wA hA wB hB : ℝ) :
    CollisionSystem.aabbVsAabb posA wA hA posB wB hB =
      CollisionSystem.aabbVsAabb posB wB hB posA wA hA := by
  simp only [CollisionSystem.aabbVsAabb]
  rw [decide_eq_decide]
  constructor
  · rintro ⟨h1, h2, h3, h4⟩
    exact ⟨h2, h1, h4, h3⟩
  · rintro ⟨h1, h2, h3, h4⟩
    exact ⟨h2, h1, h4, h3⟩

/-- C4: `checkCollision` returns the same boolean when its two entities
are swapped, for every shape, layer and mask combination. -/
theorem checkCollision_symmetric (tA : TransformComponent)
    (cA : ColliderComponent) (tB : TransformComponent)
    (cB : ColliderComponent) :
    CollisionSystem.checkCollision tA cA tB cB =
      CollisionSystem.checkCollision tB cB tA cA := by
  unfold CollisionSystem.checkCollision
  cases hA : cA.canCollideWith cB.layer <;>
    cases hB : cB.canCollideWith cA.layer <;>
      simp only [hA, hB, Bool.not_true, Bool.not_false, if_true, if_false,
        ite_self]
  cases hsA : cA.shape <;> cases hsB : cB.shape
  · exact CollisionSystem.circleVsCircle_comm _ _ _ _
  · rfl
  · rfl
  · exact CollisionSystem.aabbVsAabb_comm _ _ _ _ _ _

/-- CollisionSystem.resolveCollision: push a colliding pair apart along
the connecting vector; static pairs and coincident centers are skipped. -/
def CollisionSystem.resolveCollision (tA : TransformComponent)
    (cA : ColliderComponent) (tB : TransformComponent)
    (cB : ColliderComponent) : TransformComponent × TransformComponent :=
  if cA.isStatic && cB.isStatic then (tA, tB)
  else
    let delta := tB.position.subtract tA.position
    let distance := delta.length
    if distance = 0 then (tA, tB)
    else
      let overlap := cA.radius + cB.radius - distance
      if overlap ≤ 0 then (tA, tB)
      else
        let separation := delta.normalize.multiply overlap
        if !cA.isStatic && !cB.isStatic then
          (tA.translate (separation.multiply (-0.5)),
            tB.translate (separation.multiply 0.5))
        else if cA.isStatic then (tA, tB.translate separation)
        else (tA.translate (separation.multiply (-1)), tB)

/-- C9: `resolveCollision` moves neither transform when both colliders are
static, or when the two positions coincide exactly; and a static side is
never moved in any case. -/
theorem resolveCollision_static_and_coincident_skip
    (tA : TransformComponent) (cA : ColliderComponent)
    (tB : TransformComponent) (cB : ColliderComponent) :
    (cA.isStatic = true → cB.isStatic = true →
      CollisionSystem.resolveCollision tA cA tB cB = (tA, tB)) ∧
    (tA.position = tB.position →
      CollisionSystem.resolveCollision tA cA tB cB = (tA, tB)) ∧
    (cA.isStatic = true →
      (CollisionSystem.resolveCollision tA cA tB cB).1 = tA) ∧
    (cB.isStatic = true →
      (CollisionSystem.resolveCollision tA cA tB cB).2 = tB) := by
  have hzero : tA.position = tB.position →
      (tB.position.subtract tA.position).length = 0 := by
    intro hpos
    unfold Vector2D.subtract Vector2D.length
    rw [hpos]
    simp
  refine ⟨?_, ?_, ?_, ?_⟩
  · intro hA hB
    unfold CollisionSystem.resolveCollision
    simp [hA, hB]
  · intro hpos
    unfold CollisionSystem.resolveCollision
    by_cases hS : cA.isStatic && cB.isStatic
    · simp [hS]
    · simp [hS, hzero hpos]
  · intro hA
    unfold CollisionSystem.resolveCollision
    by_cases hB : cB.isStatic
    · simp [hA, hB]
    · by_cases hd : (tB.position.subtract tA.position).length = 0
      · simp [hA, hB, hd]
      · by_cases ho : cA.radius + cB.radius -
            (tB.position.subtract tA.position).length ≤ 0
        · simp [hA, hB, hd, ho]
        · simp [hA, hB, hd, ho]
  · intro hB
    unfold CollisionSystem.resolveCollision
    by_cases hA : cA.isStatic
    · simp [hA, hB]
    · by_cases hd : (tB.position.subtract tA.position).length = 0
      · simp [hA, hB, hd]
      · by_cases ho : cA.radius + cB.radius -
            (tB.position.subtract tA.position).length ≤ 0
        · simp [hA, hB, hd, ho]
        · simp [hA, hB, hd, ho]

/-- A concrete static wall collider used to witness C9. -/
def wallCollider : ColliderComponent :=
  { shape := ColliderShape.rectangle, radius := 16, width := 32, height := 32,
    offsetX := 0, offsetY := 0, layer := 8, mask := 0xffffffff,
    isTrigger := false, isStatic := true }

/-- A concrete transform used to witness C9. -/
def wallTransform : TransformComponent :=
  { position := ⟨50, 50⟩, rotation := 0, scale := ⟨1, 1⟩ }

/-- C9 witness: two overlapping static colliders are left untouched. -/
theorem resolveCollision_static_and_coincident_skip_witness :
    wallCollider.isStatic = true ∧
    CollisionSystem.resolveCollision wallTransform wallCollider wallTransform
        wallCollider = (wallTransform, wallTransform) :=
  ⟨rfl, (resolveCollision_static_and_coincident_skip wallTransform wallCollider
      wallTransform wallCollider).1 rfl rfl⟩

/-- AI behavior types. -/
inductive AIBehaviorType where
  | idle
  | aggressive
  | ranged
  | patrol
  | flee
  deriving DecidableEq

/-- AI states. -/
inductive AIState where
  | idle
  | patrol
  | chase
  | attack
  | flee
  | dead
  deriving DecidableEq

/-- AIComponent: enemy behavior and decision-making state. -/
structure AIComponent where
  behaviorType : AIBehaviorType
  state : AIState
  targetId : Option String
  aggroRange : ℝ
  attackRange : ℝ
  patrolPoints : List (ℝ × ℝ)
  currentPatrolIndex : ℕ
  lastStateChange : ℝ

/-- AIComponent.setState: only an actual state change updates the
`lastStateChange` baseline. -/
def AIComponent.setState (ai : AIComponent) (state : AIState) (now : ℝ) :
    AIComponent :=
  if ai.state ≠ state then { ai with state := state, lastStateChange := now }
  else ai

/-- AIComponent.setTarget. -/
def AIComponent.setTarget (ai : AIComponent) (targetId : Option String) :
    AIComponent :=
  { ai with targetId := targetId }

/-- AIComponent.clearTarget. -/
def AIComponent.clearTarget (ai : AIComponent) : AIComponent :=
  { ai with targetId := none }

/-- A `combat:attack` request emitted by the AI system. -/
structure CombatAttackRequest where
  attackerId : String
  targetId : String

/-- AISystem.moveTowards: accelerate toward a target position and face it. -/
def AISystem.moveTowards (t : TransformComponent) (m : MovementComponent)
    (targetPos : Vector2D) (deltaTime : ℝ) :
    TransformComponent × MovementComponent :=
  let direction := (targetPos.subtract t.position).normalize
  (t.lookAt targetPos, m.moveInDirection direction deltaTime)

/-- AISystem.moveAway: accelerate directly away from a target position and
face away from it. -/
def AISystem.moveAway (t : TransformComponent) (m : MovementComponent)
    (targetPos : Vector2D) (deltaTime : ℝ) :
    TransformComponent × MovementComponent :=
  let direction := (t.position.subtract targetPos).normalize
  ({ t with rotation := direction.angle }, m.moveInDirection direction deltaTime)

/-- AISystem.updateRangedBehavior: keep distance and attack.  Inside the
aggro range: closer than 80% of the attack range backs away (`flee`),
farther than the attack range closes in (`chase`), otherwise stand and
attack on cooldown.  Outside the aggro range: go idle.  The entity's own
id, the player's id/position, the distance, the frame delta and the clock
are explicit arguments. -/
def AISystem.updateRangedBehavior (ai : AIComponent) (t : TransformComponent)
    (m : MovementComponent) (combat : Option CombatComponent)
    (selfId playerId : String) (playerPos : Vector2D)
    (distanceToPlayer deltaTime now : ℝ) :
    AIComponent × TransformComponent × MovementComponent ×
      List CombatAttackRequest :=
  let optimalRange := ai.attackRange * 0.8
  if distanceToPlayer ≤ ai.aggroRange then
    let ai1 := ai.setTarget (some playerId)
    if distanceToPlayer < optimalRange then
      let ai2 := ai1.setState AIState.flee now
      let tm := AISystem.moveAway t m playerPos deltaTime
      (ai2, tm.1, tm.2, [])
    else if distanceToPlayer > ai.attackRange then
      let ai2 := ai1.setState AIState.chase now
      let tm := AISystem.moveTowards t m playerPos deltaTime
      (ai2, tm.1, tm.2, [])
    else
      let ai2 := ai1.setState AIState.attack now
      let m1 := m.stop
      match combat with
      | some c =>
          if c.canAttack now then (ai2, t, m1, [⟨selfId, playerId⟩])
          else (ai2, t, m1, [])
      | none => (ai2, t, m1, [])
  else
    let ai1 := ai.setState AIState.idle now
    let ai2 := ai1.clearTarget
    (ai2, t, m.stop, [])

/-- setState always lands in the requested state. -/
theorem AIComponent.setState_state (ai : AIComponent) (s : AIState)
    (now : ℝ) : (ai.setState s now).state = s := by
  unfold AIComponent.setState
  by_cases h : ai.state ≠ s
  · rw [if_pos h]
  · rw [if_neg h]
    exact not_not.mp h

/-- A concrete ranged AI component (aggro 200, attack range 100). -/
def rangedAISample : AIComponent :=
  { behaviorType := AIBehaviorType.ranged, state := AIState.idle,
    targetId := none, aggroRange := 200, attackRange := 100,
    patrolPoints := [], currentPatrolIndex := 0, lastStateChange := 0 }

/-- A concrete transform at the origin. -/
def rangedTransformSample : TransformComponent :=
  { position := ⟨0, 0⟩, rotation := 0, scale := ⟨1, 1⟩ }

/-- A concrete movement component for the ranged AI samples. -/
def rangedMovementSample : MovementComponent :=
  { velocity := Vector2D.zero, speed := 1, maxSpeed := 1,
    acceleration := 1000, friction := 0.9 }

/-- C5 counterexample: with attack range 100 (standoff 80) and the player
at distance 90 — strictly between standoff and attack range — the ranged
behavior enters `attack`, not `chase` as claimed. -/
theorem updateRangedBehavior_midband_is_attack_not_chase :
    (AISystem.updateRangedBehavior rangedAISample rangedTransformSample
        rangedMovementSample none "enemy1" "player1" ⟨90, 0⟩ 90 0.016
        1000).1.state = AIState.attack ∧
    AIState.attack ≠ AIState.chase := by
  constructor
  · simp only [AISystem.updateRangedBehavior]
    rw [if_pos (by norm_num [rangedAISample] :
      (90 : ℝ) ≤ rangedAISample.aggroRange)]
    rw [if_neg (by norm_num [rangedAISample] :
      ¬ ((90 : ℝ) < rangedAISample.attackRange * 0.8))]
    rw [if_neg (by norm_num [rangedAISample] :
      ¬ ((90 : ℝ) > rangedAISample.attackRange))]
    exact AIComponent.setState_state _ _ _
  · decide

/-- C5 (amended): for a ranged AI entity with the player inside aggro
range, a distance below the standoff distance (80% of attack range) gives
`flee` backing away; a distance between the standoff distance and the
attack range (inclusive) gives `attack` with movement stopped; and a
distance beyond the attack range (but inside aggro range) gives `chase`
moving toward the player. -/
theorem updateRangedBehavior_band_behavior (ai : AIComponent)
    (t : TransformComponent) (m : MovementComponent)
    (combat : Option CombatComponent) (selfId playerId : String)
    (playerPos : Vector2D) (d dt now : ℝ) :
    (d ≤ ai.aggroRange → d < ai.attackRange * 0.8 →
      (AISystem.updateRangedBehavior ai t m combat selfId playerId playerPos d
          dt now).1.state = AIState.flee ∧
      (AISystem.updateRangedBehavior ai t m combat selfId playerId playerPos d
          dt now).2.2.1 = (AISystem.moveAway t m playerPos dt).2) ∧
    (d ≤ ai.aggroRange → ai.attackRange * 0.8 ≤ d → d ≤ ai.attackRange →
      (AISystem.updateRangedBehavior ai t m combat selfId playerId playerPos d
          dt now).1.state = AIState.attack ∧
      (AISystem.updateRangedBehavior ai t m combat selfId playerId playerPos d
          dt now).2.2.1.velocity = Vector2D.zero) ∧
    (0 ≤ ai.attackRange → d ≤ ai.aggroRange → ai.attackRange < d →
      (AISystem.updateRangedBehavior ai t m combat selfId playerId playerPos d
          dt now).1.state = AIState.chase ∧
      (AISystem.updateRangedBehavior ai t m combat selfId playerId playerPos d
          dt now).2.2.1 = (AISystem.moveTowards t m playerPos dt).2) := by
  refine ⟨?_, ?_, ?_⟩
  · intro h1 h2
    simp only [AISystem.updateRangedBehavior]
    rw [if_pos h1, if_pos h2]
    exact ⟨AIComponent.setState_state _ _ _, rfl⟩
  · intro h1 h2 h3
    simp only [AISystem.updateRangedBehavior]
    rw [if_pos h1, if_neg (not_lt.mpr h2), if_neg (not_lt.mpr h3)]
    cases combat with
    | none => exact ⟨AIComponent.setState_state _ _ _, rfl⟩
    | some c =>
        by_cases hca : c.canAttack now <;>
          simp [hca, AIComponent.setState_state, MovementComponent.stop]
  · intro hR h1 h2
    have h3 : ¬ (d < ai.attackRange * 0.8) := by
      intro hlt
      linarith
    simp only [AISystem.updateRangedBehavior]
    rw [if_pos h1, if_neg h3, if_pos h2]
    exact ⟨AIComponent.setState_state _ _ _, rfl⟩

/-- C5 amended theorem witness, in the standoff-to-attack-range band. -/
theorem updateRangedBehavior_band_behavior_witness :
    (90 : ℝ) ≤ rangedAISample.aggroRange ∧
    rangedAISample.attackRange * 0.8 ≤ 90 ∧
    (90 : ℝ) ≤ rangedAISample.attackRange ∧
    ((AISystem.updateRangedBehavior rangedAISample rangedTransformSample
        rangedMovementSample none "enemy2" "player1" ⟨90, 0⟩ 90 0.016
        1000).1.state = AIState.attack ∧
      (AISystem.updateRangedBehavior rangedAISample rangedTransformSample
          rangedMovementSample none "enemy2" "player1" ⟨90, 0⟩ 90 0.016
          1000).2.2.1.velocity = Vector2D.zero) :=
  ⟨by norm_num [rangedAISample], by norm_num [rangedAISample],
    by norm_num [rangedAISample],
    (updateRangedBehavior_band_behavior rangedAISample rangedTransformSample
        rangedMovementSample none "enemy2" "player1" ⟨90, 0⟩ 90 0.016
        1000).2.1 (by norm_num [rangedAISample]) (by norm_num [rangedAISample])
      (by norm_num [rangedAISample])⟩

/-- Entity: a stable id, the active flag (false = logically destroyed),
and at most one component per type. -/
structure Entity where
  id : String
  active : Bool
  transform : Option TransformComponent
  health : Option HealthComponent
  combat : Option CombatComponent
  player : Option PlayerComponent
  enemy : Option EnemyComponent

/-- Entity.destroy: mark as inactive (pending removal). -/
def Entity.destroy (e : Entity) : Entity := { e with active := false }

/-- hasAllComponents for CombatSystem's required set
(Transform, Health, Combat). -/
def Entity.hasAllCombatComponents (e : Entity) : Bool :=
  e.transform.isSome && e.health.isSome && e.combat.isSome

/-- Events emitted on the event bus by the combat system. -/
inductive GameEvent where
  | damageDealt (attackerId targetId : String) (damage : ℝ) (isCritical : Bool)
  | entityDied (entityId : String) (killerId : Option String) (posX posY : ℝ)
  | enemyKilled (entityId : String) (enemyType : EnemyType)
      (experienceReward : ℝ)
  | experienceGained (amount currentExp expToNext : ℝ)
  | playerLevelUp (newLevel statPoints : ℝ)
  | gameOver (level kills : ℝ)
  | notification

/-- The entity id named by an `entity:died` or `enemy:killed` event, if
the event is of one of those two kinds. -/
def GameEvent.diedOrKilledId : GameEvent → Option String
  | GameEvent.entityDied i _ _ _ => some i
  | GameEvent.enemyKilled i _ _ => some i
  | _ => none

/-- Replace the JS in-place mutation of an entity object: rewrite the
entity with the given id (all aliases of the object observe the change). -/
def updateEntityById (w : List Entity) (id : String) (f : Entity → Entity) :
    List Entity :=
  w.map (fun e => if e.id = id then f e else e)

/-- CombatSystem.findPlayer: first entity with a Player component. -/
def CombatSystem.findPlayer (entities : List Entity) : Option Entity :=
  entities.find? (fun e => e.player.isSome)

/-- The actual damage of an attack: raw strength-plus-variance, reduced by
the target's defense when the target has a Combat component. -/
def CombatSystem.attackDamage (attackerCombat : CombatComponent)
    (targetCombat : Option CombatComponent) (roll : ℝ) : ℝ :=
  let rawDamage := attackerCombat.calculateDamage roll
  match targetCombat with
  | some tc => tc.calculateDamageReceived rawDamage
  | none => rawDamage

/-- CombatSystem.handleAttack: honor the attack only when both components
exist and the attacker's cooldown has elapsed; then apply damage, reset
the attacker's cooldown timer and emit `damage:dealt`. -/
def CombatSystem.handleAttack (attacker target : Entity) (now roll : ℝ) :
    Entity × Entity × List GameEvent :=
  match attacker.combat, target.health with
  | some attackerCombat, some targetHealth =>
      if attackerCombat.canAttack now then
        let actualDamage :=
          CombatSystem.attackDamage attackerCombat target.combat roll
        let targetHealth1 := (targetHealth.takeDamage actualDamage now).2
        let attackerCombat1 := attackerCombat.performAttack now
        ({ attacker with combat := some attackerCombat1 },
          { target with health := some targetHealth1 },
          [GameEvent.damageDealt attacker.id target.id actualDamage false])
      else (attacker, target, [])
  | _, _ => (attacker, target, [])

/-- CombatSystem.handlePlayerLevelUp: flat stat increases, full heal, and
the level-up and notification events. -/
def CombatSystem.handlePlayerLevelUp (pe : Entity) : Entity × List GameEvent :=
  match pe.player with
  | none => (pe, [])
  | some player =>
      let combat1 := pe.combat.map (fun c =>
        { c with strength := c.strength + 3, defense := c.defense + 2 })
      let health1 := pe.health.map (fun h => (h.increaseMax 20 false).restore)
      ({ pe with combat := combat1, health := health1 },
        [GameEvent.playerLevelUp player.level player.statPoints,
          GameEvent.notification])

/-- CombatSystem.handlePlayerDeath: emit the game-over event. -/
def CombatSystem.handlePlayerDeath (playerEntity : Entity) : List GameEvent :=
  match playerEntity.player with
  | none => []
  | some player => [GameEvent.gameOver player.level player.kills]

/-- CombatSystem.handleEnemyDeath: emit `enemy:killed`, then award the
kill and the experience to the player (if one exists), emit
`experience:gained`, and cascade into the level-up path when the
threshold was crossed. -/
def CombatSystem.handleEnemyDeath (w : List Entity) (enemyEntity : Entity) :
    List Entity × List GameEvent :=
  match enemyEntity.enemy with
  | none => (w, [])
  | some enemy =>
      let killedEvent := GameEvent.enemyKilled enemyEntity.id enemy.enemyType
        enemy.experienceReward
      match CombatSystem.findPlayer w with
      | none => (w, [killedEvent])
      | some playerEntity =>
          match playerEntity.player with
          | none => (w, [killedEvent])
          | some playerComp =>
              let playerComp1 := playerComp.addKill
              let ar := playerComp1.addExperience enemy.experienceReward
              let pe1 := { playerEntity with player := some ar.1 }
              let expEvent := GameEvent.experienceGained enemy.experienceReward
                ar.1.experience ar.1.experienceToNext
              if ar.2 then
                let lr := CombatSystem.handlePlayerLevelUp pe1
                (updateEntityById w playerEntity.id (fun _ => lr.1),
                  killedEvent :: expEvent :: lr.2)
              else
                (updateEntityById w playerEntity.id (fun _ => pe1),
                  [killedEvent, expEvent])

/-- CombatSystem.handleEntityDeath: emit `entity:died`, run the enemy and
player death paths, then mark the entity destroyed. -/
def CombatSystem.handleEntityDeath (w : List Entity) (deadEntity : Entity) :
    List Entity × List GameEvent :=
  match deadEntity.transform with
  | none => (w, [])
  | some transform =>
      let deathEvent := GameEvent.entityDied deadEntity.id none
        transform.position.x transform.position.y
      let er := if deadEntity.enemy.isSome then
          CombatSystem.handleEnemyDeath w deadEntity
        else (w, [])
      let playerEvents := if deadEntity.player.isSome then
          CombatSystem.handlePlayerDeath deadEntity
        else []
      let w2 := updateEntityById er.1 deadEntity.id Entity.destroy
      (w2, deathEvent :: (er.2 ++ playerEvents))

/-- The per-entity body of CombatSystem.update's death sweep: re-read the
entity by id (shared mutable object), and run the death path when its
health has reached zero. -/
def CombatSystem.updateStep (acc : List Entity × List GameEvent)
    (id : String) : List Entity × List GameEvent :=
  match acc.1.find? (fun e => e.id == id) with
  | none => acc
  | some e =>
      match e.health with
      | none => acc
      | some h =>
          if h.isDead then
            let r := CombatSystem.handleEntityDeath acc.1 e
            (r.1, acc.2 ++ r.2)
          else acc

/-- CombatSystem.update: filter the active entities holding all required
components, then run the death sweep over them. -/
def CombatSystem.update (w : List Entity) : List Entity × List GameEvent :=
  let combatIds :=
    (w.filter (fun e => e.active && e.hasAllCombatComponents)).map Entity.id
  combatIds.foldl CombatSystem.updateStep (w, [])

/-- C8: an attack request against a target with Health is honored exactly
when the attacker's Combat cooldown has elapsed; then damage is applied to
the target's health via `takeDamage`, the attacker's `lastAttackTime` is
reset to `now`, and a single `damage:dealt` event fires.  Otherwise
nothing changes and no event fires. -/
theorem handleAttack_gated_by_cooldown (attacker target : Entity)
    (ac : CombatComponent) (th : HealthComponent) (now roll : ℝ)
    (hac : attacker.combat = some ac) (hth : target.health = some th) :
    (now - ac.lastAttackTime ≥ ac.attackCooldown →
      CombatSystem.handleAttack attacker target now roll =
        ({ attacker with combat := some (ac.performAttack now) },
          { target with health := some ((th.takeDamage
            (CombatSystem.attackDamage ac target.combat roll) now).2) },
          [GameEvent.damageDealt attacker.id target.id
            (CombatSystem.attackDamage ac target.combat roll) false])) ∧
    (¬ (now - ac.lastAttackTime ≥ ac.attackCooldown) →
      CombatSystem.handleAttack attacker target now roll =
        (attacker, target, [])) := by
  constructor
  · intro hcool
    simp only [CombatSystem.handleAttack, hac, hth]
    rw [if_pos (show ac.canAttack now from hcool)]
  · intro hcool
    simp only [CombatSystem.handleAttack, hac, hth]
    rw [if_neg (show ¬ ac.canAttack now from hcool)]

/-- A concrete attacker combat component for the C8 witness. -/
def attackerCombatSample : CombatComponent :=
  { strength := 10, defense := 5, attackRange := 50, attackCooldown := 500,
    lastAttackTime := 0 }

/-- A concrete attacker entity for the C8 witness. -/
def attackerSample : Entity :=
  { id := "attacker1", active := true, transform := none, health := none,
    combat := some attackerCombatSample, player := none, enemy := none }

/-- A concrete target health component for the C8 witness. -/
def targetHealthSample : HealthComponent :=
  { current := 100, max := 100, invulnerable := false, lastDamageTime := 0 }

/-- A concrete target entity for the C8 witness. -/
def targetSample : Entity :=
  { id := "target1", active := true, transform := none,
    health := some targetHealthSample, combat := none, player := none,
    enemy := none }

/-- C8 witness: 600ms after the last attack with a 500ms cooldown the
attack is honored. -/
theorem handleAttack_gated_by_cooldown_witness :
    attackerSample.combat = some attackerCombatSample ∧
    targetSample.health = some targetHealthSample ∧
    (600 : ℝ) - attackerCombatSample.lastAttackTime ≥
      attackerCombatSample.attackCooldown ∧
    CombatSystem.handleAttack attackerSample targetSample 600 3 =
      ({ attackerSample with
          combat := some (attackerCombatSample.performAttack 600) },
        { targetSample with health := some ((targetHealthSample.takeDamage
          (CombatSystem.attackDamage attackerCombatSample targetSample.combat 3)
          600).2) },
        [GameEvent.damageDealt attackerSample.id targetSample.id
          (CombatSystem.attackDamage attackerCombatSample targetSample.combat 3)
          false]) :=
  ⟨rfl, rfl, by norm_num [attackerCombatSample],
    (handleAttack_gated_by_cooldown attackerSample targetSample
        attackerCombatSample targetHealthSample 600 3 rfl rfl).1
      (by norm_num [attackerCombatSample])⟩

/-- The level-up path emits no death events. -/
theorem handlePlayerLevelUp_no_death_events (pe : Entity) :
    ∀ ev ∈ (CombatSystem.handlePlayerLevelUp pe).2,
      ev.diedOrKilledId = none := by
  intro ev hev
  unfold CombatSystem.handlePlayerLevelUp at hev
  split at hev
  · simp at hev
  · simp at hev
    rcases hev with rfl | rfl <;> rfl

/-- The player-death path emits no death events (only `game:over`). -/
theorem handlePlayerDeath_no_death_events (pe : Entity) :
    ∀ ev ∈ CombatSystem.handlePlayerDeath pe, ev.diedOrKilledId = none := by
  intro ev hev
  unfold CombatSystem.handlePlayerDeath at hev
  split at hev
  · simp at hev
  · simp at hev
    rw [hev]
    rfl

/-- Every death event emitted by the enemy-death path names the dead
enemy itself. -/
theorem handleEnemyDeath_death_ids (w : List Entity) (d : Entity) :
    ∀ ev ∈ (CombatSystem.handleEnemyDeath w d).2,
      ev.diedOrKilledId = none ∨ ev.diedOrKilledId = some d.id := by
  intro ev hev
  unfold CombatSystem.handleEnemyDeath at hev
  split at hev
  · simp at hev
  · split at hev
    · simp at hev
      rw [hev]
      right
      rfl
    · split at hev
      · simp at hev
        rw [hev]
        right
        rfl
      · dsimp only at hev
        split at hev
        · rcases List.mem_cons.mp hev with rfl | hev1
          · right; rfl
          · rcases List.mem_cons.mp hev1 with rfl | hev2
            · left; rfl
            · left
              exact handlePlayerLevelUp_no_death_events _ ev hev2
        · rcases List.mem_cons.mp hev with rfl | hev1
          · right; rfl
          · simp at hev1
            rw [hev1]
            left
            rfl

/-- Every death event emitted by the death-handling path names the dead
entity itself. -/
theorem handleEntityDeath_death_ids (w : List Entity) (d : Entity) :
    ∀ ev ∈ (CombatSystem.handleEntityDeath w d).2,
      ev.diedOrKilledId = none ∨ ev.diedOrKilledId = some d.id := by
  intro ev hev
  unfold CombatSystem.handleEntityDeath at hev
  split at hev
  · simp at hev
  · rcases List.mem_cons.mp hev with rfl | h
    · right; rfl
    · rcases List.mem_append.mp h with h1 | h2
      · by_cases hde : d.enemy.isSome
        · rw [if_pos hde] at h1
          exact handleEnemyDeath_death_ids w d ev h1
        · rw [if_neg hde] at h1
          simp at h1
      · by_cases hdp : d.player.isSome
        · rw [if_pos hdp] at h2
          left
          exact handlePlayerDeath_no_death_events d ev h2
        · rw [if_neg hdp] at h2
          simp at h2

/-- Every event produced by one death-sweep step was already present, or
is a non-death event, or is a death event naming the processed id. -/
theorem updateStep_events (acc : List Entity × List GameEvent) (id : String) :
    ∀ ev ∈ (CombatSystem.updateStep acc id).2,
      ev ∈ acc.2 ∨ ev.diedOrKilledId = none ∨ ev.diedOrKilledId = some id := by
  intro ev hev
  unfold CombatSystem.updateStep at hev
  split at hev
  · exact Or.inl hev
  · rename_i e hfind
    split at hev
    · exact Or.inl hev
    · rename_i h hh
      split at hev
      · rcases List.mem_append.mp hev with h1 | h2
        · exact Or.inl h1
        · have hid : e.id = id := by
            have hp := List.find?_some hfind
            exact eq_of_beq hp
          rcases handleEntityDeath_death_ids acc.1 e ev h2 with hn | hs
          · exact Or.inr (Or.inl hn)
          · refine Or.inr (Or.inr ?_)
            rw [hs, hid]
      · exact Or.inl hev

/-- Folding the death sweep over ids different from `i` never emits a
death event naming `i`. -/
theorem foldl_updateStep_no_death_events_for (i : String) :
    ∀ ids : List String, (∀ id ∈ ids, id ≠ i) →
      ∀ acc : List Entity × List GameEvent,
        (∀ ev ∈ acc.2, ev.diedOrKilledId ≠ some i) →
        ∀ ev ∈ (ids.foldl CombatSystem.updateStep acc).2,
          ev.diedOrKilledId ≠ some i := by
  intro ids
  induction ids with
  | nil =>
      intro _ acc hacc ev hev
      exact hacc ev hev
  | cons id rest ih =>
      intro hids acc hacc ev hev
      rw [List.foldl_cons] at hev
      refine ih (fun x hx => hids x (List.mem_cons_of_mem _ hx)) _ ?_ ev hev
      intro ev' hev'
      rcases updateStep_events acc id ev' hev' with h | h | h
      · exact hacc ev' h
      · rw [h]
        simp
      · rw [h]
        intro hcontra
        exact hids id (List.mem_cons_self _ _) (Option.some.inj hcontra)

/-- Folding a step that fixes the accumulator leaves it unchanged. -/
theorem foldl_updateStep_fixed :
    ∀ (ids : List String) (acc : List Entity × List GameEvent),
      (∀ id ∈ ids, CombatSystem.updateStep acc id = acc) →
      ids.foldl CombatSystem.updateStep acc = acc := by
  intro ids
  induction ids with
  | nil => intro acc _; rfl
  | cons id rest ih =>
      intro acc h
      rw [List.foldl_cons, h id (List.mem_cons_self _ _)]
      exact ih acc (fun x hx => h x (List.mem_cons_of_mem _ hx))

/-- C2: in a world with unique entity ids, the death sweep never emits an
`entity:died` or `enemy:killed` event naming an already-inactive entity
(the active check in the filter guards the death path); and when every
active entity with Health is alive — i.e. all dead entities were already
processed and deactivated — a further run of the sweep is a complete
no-op: the world is unchanged (so no experience is awarded) and no event
at all is emitted. -/
theorem combatSystem_update_skips_inactive (w : List Entity) (e : Entity)
    (hmem : e ∈ w) (hinactive : e.active = false)
    (hnodup : (w.map Entity.id).Nodup) :
    (∀ ev ∈ (CombatSystem.update w).2, ev.diedOrKilledId ≠ some e.id) ∧
    ((∀ e' ∈ w, e'.active = true → ∀ h, e'.health = some h → ¬ h.isDead) →
      CombatSystem.update w = (w, [])) := by
  have hunique : ∀ a ∈ w, ∀ b ∈ w, a.id = b.id → a = b :=
    fun a ha b hb hab => List.inj_on_of_nodup_map hnodup ha hb hab
  constructor
  · intro ev hev
    unfold CombatSystem.update at hev
    have hnotin : ∀ id ∈ (w.filter
        (fun x => x.active && x.hasAllCombatComponents)).map Entity.id,
        id ≠ e.id := by
      intro id hid heq
      rcases List.mem_map.mp hid with ⟨e1, he1, rfl⟩
      have hef := List.mem_filter.mp he1
      have heeq : e1 = e := hunique e1 hef.1 e hmem heq
      have hconj := hef.2
      rw [heeq, hinactive] at hconj
      simp at hconj
    exact foldl_updateStep_no_death_events_for e.id _ hnotin (w, [])
      (by intro ev1 h1; simp at h1) ev hev
  · intro halive
    unfold CombatSystem.update
    apply foldl_updateStep_fixed
    intro id hid
    rcases List.mem_map.mp hid with ⟨e1, he1, rfl⟩
    have hef := List.mem_filter.mp he1
    have hin : e1 ∈ w := hef.1
    have hconj := hef.2
    rw [Bool.and_eq_true] at hconj
    have hactive : e1.active = true := hconj.1
    have hcomps : e1.hasAllCombatComponents = true := hconj.2
    have hhs : e1.health.isSome = true := by
      unfold Entity.hasAllCombatComponents at hcomps
      rw [Bool.and_eq_true] at hcomps
      have h4 := hcomps.1
      rw [Bool.and_eq_true] at h4
      exact h4.2
    obtain ⟨h, hhealth⟩ := Option.isSome_iff_exists.mp hhs
    have hfind : w.find? (fun x => x.id == e1.id) = some e1 := by
      cases hf : w.find? (fun x => x.id == e1.id) with
      | none =>
          exfalso
          have := List.find?_eq_none.mp hf e1 hin
          simp at this
      | some x =>
          have hx1 : x ∈ w := List.mem_of_find?_eq_some hf
          have hp := List.find?_some hf
          have hx2 : x.id = e1.id := eq_of_beq hp
          rw [hunique x hx1 e1 hin hx2]
    show CombatSystem.updateStep (w, []) e1.id = (w, [])
    unfold CombatSystem.updateStep
    have hfst : (w, ([] : List GameEvent)).1 = w := rfl
    rw [hfst, hfind]
    dsimp only
    rw [hhealth]
    dsimp only
    rw [if_neg (halive e1 hin hactive h hhealth)]

/-- A concrete already-processed (inactive) dead enemy entity. -/
def deadEnemySample : Entity :=
  { id := "enemy1", active := false,
    transform := some { position := ⟨10, 10⟩, rotation := 0, scale := ⟨1, 1⟩ },
    health := some { current := 0, max := 30, invulnerable := false,
                     lastDamageTime := 500 },
    combat := some { strength := 5, defense := 0, attackRange := 35,
                     attackCooldown := 1500, lastAttackTime := 0 },
    player := none,
    enemy := some { enemyType := EnemyType.slime, experienceReward := 25,
                    lootTable := "common" } }

/-- A concrete live player entity. -/
def livePlayerSample : Entity :=
  { id := "player1", active := true,
    transform := some { position := ⟨0, 0⟩, rotation := 0, scale := ⟨1, 1⟩ },
    health := some { current := 100, max := 100, invulnerable := false,
                     lastDamageTime := 0 },
    combat := some { strength := 10, defense := 5, attackRange := 50,
                     attackCooldown := 500, lastAttackTime := 0 },
    player := some { level := 1, experience := 0, experienceToNext := 100,
                     statPoints := 0, kills := 1 },
    enemy := none }

/-- C2 witness: a world holding the already-processed dead enemy and a
live player; a second death sweep changes nothing and emits nothing. -/
theorem combatSystem_update_skips_inactive_witness :
    deadEnemySample.active = false ∧
    (([deadEnemySample, livePlayerSample].map Entity.id).Nodup) ∧
    CombatSystem.update [deadEnemySample, livePlayerSample] =
      ([deadEnemySample, livePlayerSample], []) := by
  have hnodup : (([deadEnemySample, livePlayerSample].map Entity.id).Nodup) := by
    simp [deadEnemySample, livePlayerSample]
  refine ⟨rfl, hnodup, ?_⟩
  refine (combatSystem_update_skips_inactive [deadEnemySample, livePlayerSample]
      deadEnemySample (List.Mem.head _) rfl hnodup).2 ?_
  intro e' he' hact h hh
  rcases he' with _ | ⟨_, he2⟩
  · exact absurd hact (by simp [deadEnemySample])
  · rcases he2 with _ | ⟨_, he3⟩
    · simp only [livePlayerSample] at hh
      have hlit := Option.some.inj hh
      unfold HealthComponent.isDead
      rw [← hlit]
      norm_num
    · cases he3

/-- C10 witness at a concrete invulnerable component. -/
theorem takeDamage_invulnerable_is_noop_witness :
    ({ current := 40, max := 100, invulnerable := true,
       lastDamageTime := 3 } : HealthComponent).invulnerable = true ∧
    ({ current := 40, max := 100, invulnerable := true,
       lastDamageTime := 3 } : HealthComponent).takeDamage 1000 99 =
      (0, { current := 40, max := 100, invulnerable := true,
            lastDamageTime := 3 }) :=
  ⟨rfl, takeDamage_invulnerable_is_noop _ 1000 99 rfl⟩

end
